import Mathlib

/-!
Shallow embedding of the AI video-processor server: `server.js` together with
the modules under `src/` (`objectDetection.js`, `utils.js`, `sentiment.js`,
`demoMode.js`, `transcription.js`, `videoProcessor.js`).  External
collaborator calls (ffmpeg probing/extraction and the OpenAI chat, vision and
transcription endpoints) are modelled as explicit `Except` outcomes supplied
to the embedded functions; wall-clock readings (`Date.now`,
`new Date().toISOString()`) are explicit string parameters.  JavaScript
numbers are modelled as `ℚ`, `Math.round` as round-half-up on `ℚ`.
-/

namespace VideoAnalysis

/-- JavaScript `Math.round`: rounds half-way cases toward positive infinity. -/
def jsRound (q : ℚ) : ℤ := ⌊q + 1 / 2⌋

/-- JavaScript `Math.round(x * 10) / 10`: round to one decimal place. -/
def jsRound1 (q : ℚ) : ℚ := (jsRound (q * 10) : ℚ) / 10

/-- JavaScript `Math.round(x * 100) / 100`: round to two decimal places. -/
def jsRound2 (q : ℚ) : ℚ := (jsRound (q * 100) : ℚ) / 100

/-- JavaScript `String.prototype.toLowerCase` for the ASCII labels this
system handles, modelled as a per-character lowercasing so that it is
executable by the kernel. -/
def jsToLower (s : String) : String :=
  String.mk (s.data.map Char.toLower)

/-- One raw detection returned by the vision collaborator for a single frame
(`objectDetection.js`, `detectObjectsInFrame` response items). -/
structure FrameDetection where
  name : String
  confidence : ℚ
  context : String
  deriving DecidableEq, Inhabited

/-- One entry of a summary's `frames` list
(`objectDetection.js`, the objects pushed onto `objectMap[objName].frames`). -/
structure DetectedObjectFrame where
  frame_id : ℕ
  timestamp : ℚ
  confidence : ℚ
  context : String
  deriving DecidableEq, Inhabited

/-- One element of the `objects_detected` response list
(`objectDetection.js`, result of `detectObjectsInFrames`). -/
structure DetectedObjectSummary where
  name : String
  appearance_percentage : ℚ
  avg_confidence : ℚ
  frames : List DetectedObjectFrame
  deriving DecidableEq, Inhabited

/-- `detectObjectsInFrame` (`objectDetection.js`): the GPT-4 Vision request is
the external collaborator, its outcome passed in as an `Except`.  The source
wraps the call in try/catch and returns `[]` on any error. -/
def detectObjectsInFrame (result : Except String (List FrameDetection)) :
    List FrameDetection :=
  match result with
  | .ok objs => objs
  | .error _ => []

/-- Index-tracking filter modelling the JavaScript
`framePaths.filter((_, index) => index % sampleRate === 0)` callback, which
receives the element together with its 0-based index. -/
def sampledFramesGo (sampleRate : ℕ) : List String → ℕ → List String
  | [], _ => []
  | p :: rest, idx =>
    if idx % sampleRate = 0 then p :: sampledFramesGo sampleRate rest (idx + 1)
    else sampledFramesGo sampleRate rest (idx + 1)

/-- The `sampledFrames` array of `detectObjectsInFrames`
(`objectDetection.js`): keep the frames whose 0-based index is a multiple of
`sampleRate`. -/
def sampledFrames (framePaths : List String) (sampleRate : ℕ) : List String :=
  sampledFramesGo sampleRate framePaths 0

/-- One element of the `detectionsByFrame` array built inside
`detectObjectsInFrames` (`objectDetection.js`). -/
structure FrameData where
  frame_id : ℕ
  frameFile : String
  timestamp : ℚ
  objects : List FrameDetection
  deriving DecidableEq, Inhabited

/-- The per-sampled-frame loop of `detectObjectsInFrames`
(`objectDetection.js`): for every sampled frame, recover its 1-based ordinal
in the full sequence via `framePaths.indexOf(framePath) + 1`, compute the
timestamp `(frameNumber - 1) / fps`, and record the (error-absorbed)
detections for that frame. -/
def detectionsByFrame (framePaths : List String) (sampleRate : ℕ) (fps : ℚ)
    (detect : String → Except String (List FrameDetection)) : List FrameData :=
  (sampledFrames framePaths sampleRate).map (fun framePath =>
    let frameNumber := framePaths.indexOf framePath + 1
    { frame_id := frameNumber
      frameFile := (framePath.splitOn "/").getLastD framePath
      timestamp := ((frameNumber : ℚ) - 1) / fps
      objects := detectObjectsInFrame (detect framePath) })

/-- One value of the `objectMap` accumulator of `detectObjectsInFrames`
(`objectDetection.js`). -/
structure ObjGroup where
  name : String
  frames : List DetectedObjectFrame
  confidences : List ℚ
  deriving DecidableEq, Inhabited

/-- The `DetectedObjectFrame` pushed for one `(frameData, obj)` pair in the
grouping loop of `detectObjectsInFrames` (`objectDetection.js`). -/
def mkEntry (fd : FrameData) (obj : FrameDetection) : DetectedObjectFrame :=
  { frame_id := fd.frame_id
    timestamp := fd.timestamp
    confidence := obj.confidence
    context := obj.context }

/-- The body of the nested `forEach` grouping loop of `detectObjectsInFrames`
(`objectDetection.js`): group key is the lower-cased object name; a fresh
group is appended at the end (JavaScript object string keys preserve
insertion order), an existing group gets the frame entry and the confidence
appended. -/
def insertPair (m : List ObjGroup) (fd : FrameData) (obj : FrameDetection) :
    List ObjGroup :=
  let objName := jsToLower obj.name
  if m.any (fun g => g.name = objName) then
    m.map (fun g =>
      if g.name = objName then
        { g with frames := g.frames ++ [mkEntry fd obj]
                 confidences := g.confidences ++ [obj.confidence] }
      else g)
  else
    m ++ [{ name := objName
            frames := [mkEntry fd obj]
            confidences := [obj.confidence] }]

/-- The full `objectMap` grouping phase of `detectObjectsInFrames`
(`objectDetection.js`): fold the nested `forEach` loops over
`detectionsByFrame` and each frame's objects. -/
def buildObjectMap (dbf : List FrameData) : List ObjGroup :=
  dbf.foldl (fun m fd => fd.objects.foldl (fun m' o => insertPair m' fd o) m) []

/-- The summary computation of `detectObjectsInFrames`
(`objectDetection.js`): `appearance_percentage` divides by the full
(unsampled) frame count and is rounded to 1 decimal, `avg_confidence` is the
mean of the collected confidences rounded to 2 decimals. -/
def mkSummary (fullFrameCount : ℕ) (g : ObjGroup) : DetectedObjectSummary :=
  let appearance_percentage := ((g.frames.length : ℚ) / (fullFrameCount : ℚ)) * 100
  let avg_confidence := (g.confidences.foldl (· + ·) 0) / (g.confidences.length : ℚ)
  { name := g.name
    appearance_percentage := jsRound1 appearance_percentage
    avg_confidence := jsRound2 avg_confidence
    frames := g.frames }

/-- The final sort of `detectObjectsInFrames` (`objectDetection.js`):
`objects_detected.sort((a, b) => b.appearance_percentage - a.appearance_percentage)`.
JavaScript `Array.prototype.sort` is stable, so this is the stable sort by
descending `appearance_percentage`. -/
def sortByAppearance (objs : List DetectedObjectSummary) :
    List DetectedObjectSummary :=
  objs.insertionSort (fun a b => b.appearance_percentage ≤ a.appearance_percentage)

/-- `detectObjectsInFrames` (`objectDetection.js`): sample the frames, run
per-frame detection with local error absorption, group detections by
lower-cased name, summarise each group, and sort by descending
`appearance_percentage`. -/
def detectObjectsInFrames (framePaths : List String) (sampleRate : ℕ) (fps : ℚ)
    (detect : String → Except String (List FrameDetection)) :
    List DetectedObjectSummary :=
  let dbf := detectionsByFrame framePaths sampleRate fps detect
  let groups := buildObjectMap dbf
  sortByAppearance (groups.map (mkSummary framePaths.length))

/-- One raw Whisper transcript segment
(`transcription.js` response, `server.js` `transcriptionData.segments`). -/
structure RawSegment where
  id : ℤ
  start : ℚ
  «end» : ℚ
  text : String
  deriving DecidableEq, Inhabited

/-- The structured transcription returned by `transcribeVideo`
(`transcription.js`). -/
structure TranscriptionData where
  full_text : String
  language : String
  segments : List RawSegment
  deriving DecidableEq, Inhabited

/-- One per-segment sentiment record as returned by
`analyzeSegmentSentiments` (`sentiment.js`). -/
structure SegmentSentiment where
  segment_id : ℤ
  sentiment : String
  mood_keywords : List String
  deriving DecidableEq, Inhabited

/-- One enriched transcript segment as assembled by the `/api/process`
handler (`server.js`, the `enrichedSegments` map). -/
structure EnrichedSegment where
  id : ℤ
  start : ℚ
  «end» : ℚ
  text : String
  speaker : String
  sentiment : String
  mood_keywords : List String
  deriving DecidableEq, Inhabited

/-- The overall sentiment record of `analyzeSentiment` (`sentiment.js`). -/
structure SentimentResult where
  overall_sentiment : String
  mood_keywords : List String
  confidence : ℚ
  short_summary : String
  deriving DecidableEq, Inhabited

/-- One snippet entry of a QA pair. -/
structure Snippet where
  segment_id : ℤ
  text : String
  deriving DecidableEq, Inhabited

/-- One question-answer pair of the `qa_pairs` response list. -/
structure QAPair where
  question : String
  answer : String
  relevantSnippets : List Snippet
  deriving DecidableEq, Inhabited

/-- `analyzeSentiment` (`sentiment.js`): the GPT-4 call is the collaborator;
on any error the source catches and returns a neutral fallback record whose
summary embeds the error message. -/
def analyzeSentiment (call : Except String SentimentResult) : SentimentResult :=
  match call with
  | .ok s => s
  | .error e =>
    { overall_sentiment := "neutral"
      mood_keywords := ["unknown"]
      confidence := 0
      short_summary := "Error analyzing sentiment: " ++ e }

/-- `analyzeSegmentSentiments` (`sentiment.js`): the batch GPT-4 call is the
collaborator; on any error the source catches and synthesizes a neutral
record per input segment. -/
def analyzeSegmentSentiments (segments : List RawSegment)
    (call : Except String (List SegmentSentiment)) : List SegmentSentiment :=
  match call with
  | .ok records => records
  | .error _ =>
    segments.map (fun seg =>
      { segment_id := seg.id
        sentiment := "neutral"
        mood_keywords := ["unknown"] })

/-- The `enrichedSegments` map of the `/api/process` handler (`server.js`):
look up a sentiment record by `segment_id`, defaulting to
`{sentiment: "neutral", mood_keywords: ["unknown"]}`, and build a fresh
segment value with the fixed speaker label `"creator"`. -/
def enrichSegments (segments : List RawSegment)
    (segmentSentiments : List SegmentSentiment) : List EnrichedSegment :=
  segments.map (fun segment =>
    let sentimentData :=
      (segmentSentiments.find? (fun s => s.segment_id = segment.id)).getD
        { segment_id := segment.id
          sentiment := "neutral"
          mood_keywords := ["unknown"] }
    { id := segment.id
      start := segment.start
      «end» := segment.«end»
      text := segment.text
      speaker := "creator"
      sentiment := sentimentData.sentiment
      mood_keywords := sentimentData.mood_keywords })

/-- Modelled from the spec: `src/qaGenerator.js` is not part of the source
snapshot (only its tests and callers are).  Per the design (§6), the QA
collaborator call falls back locally to a single error QA pair rather than
propagating a failure, which the unit tests confirm (question contains
"Error", one snippet entry present). -/
def generateQAPairs (call : Except String (List QAPair)) : List QAPair :=
  match call with
  | .ok pairs => pairs
  | .error e =>
    [{ question := "Error generating Q&A pairs"
       answer := e
       relevantSnippets := [{ segment_id := 0, text := "" }] }]

/-- The `metadata` object of the response (`server.js` result assembly and
`demoMode.js`).  The real path leaves `demoMode`/`note` absent, modelled as
`false`/`none`. -/
structure Metadata where
  videoFile : String
  videoDuration : ℚ
  processedAt : String
  processingTime : String
  demoMode : Bool
  note : Option String
  deriving DecidableEq, Inhabited

/-- The `transcript` object of the response (`server.js`). -/
structure Transcript where
  full_text : String
  language : String
  segments : List EnrichedSegment
  deriving DecidableEq, Inhabited

/-- The top-level response body of a successful `/api/process` request
(`server.js` result assembly; `demoMode.js` result plus the `sessionId`
assigned by the handler). -/
structure AnalysisResult where
  sessionId : String
  metadata : Metadata
  transcript : Transcript
  sentiment : SentimentResult
  objects_detected : List DetectedObjectSummary
  qa_pairs : List QAPair
  deriving DecidableEq, Inhabited

/-- The canned transcript text of `generateDemoResults` (`demoMode.js`). -/
def demoTranscript : String :=
  "Welcome to this demonstration video. In this video, we'll be exploring various concepts and discussing important topics. The content covers educational material presented in a clear and engaging manner. Throughout this presentation, you'll notice various visual elements and spoken explanations that work together to convey the message effectively. This is a sample transcript that demonstrates what a real transcription would look like."

/-- The canned enriched segments of `generateDemoResults` (`demoMode.js`). -/
def demoSegments : List EnrichedSegment :=
  [{ id := 0, start := 0, «end» := 5.2
     text := "Welcome to this demonstration video. In this video, we'll be exploring various concepts and discussing important topics."
     speaker := "creator", sentiment := "positive"
     mood_keywords := ["welcoming", "engaging"] },
   { id := 1, start := 5.2, «end» := 10.4
     text := "The content covers educational material presented in a clear and engaging manner."
     speaker := "creator", sentiment := "positive"
     mood_keywords := ["educational", "clear"] },
   { id := 2, start := 10.4, «end» := 17.8
     text := "Throughout this presentation, you'll notice various visual elements and spoken explanations that work together to convey the message effectively."
     speaker := "creator", sentiment := "neutral"
     mood_keywords := ["informative", "descriptive"] },
   { id := 3, start := 17.8, «end» := 22.5
     text := "This is a sample transcript that demonstrates what a real transcription would look like."
     speaker := "creator", sentiment := "neutral"
     mood_keywords := ["demonstrative", "explanatory"] }]

/-- The canned object summaries of `generateDemoResults` (`demoMode.js`). -/
def demoObjectsDetected : List DetectedObjectSummary :=
  [{ name := "person", appearance_percentage := 100, avg_confidence := 0.97
     frames :=
       [{ frame_id := 1, timestamp := 0, confidence := 0.98
          context := "creator in center frame speaking to camera" },
        { frame_id := 5, timestamp := 4, confidence := 0.97
          context := "creator gesturing while explaining" },
        { frame_id := 10, timestamp := 9, confidence := 0.96
          context := "creator sitting at desk" }] },
   { name := "laptop", appearance_percentage := 53.3, avg_confidence := 0.94
     frames :=
       [{ frame_id := 1, timestamp := 0, confidence := 0.95
          context := "on desk in front of creator" },
        { frame_id := 5, timestamp := 4, confidence := 0.93
          context := "visible on desk" },
        { frame_id := 10, timestamp := 9, confidence := 0.94
          context := "open laptop on desk" }] },
   { name := "desk", appearance_percentage := 66.7, avg_confidence := 0.91
     frames :=
       [{ frame_id := 1, timestamp := 0, confidence := 0.92
          context := "wooden desk in foreground" },
        { frame_id := 5, timestamp := 4, confidence := 0.9
          context := "desk surface visible" }] },
   { name := "coffee cup", appearance_percentage := 20, avg_confidence := 0.86
     frames :=
       [{ frame_id := 10, timestamp := 9, confidence := 0.86
          context := "next to laptop on desk" }] }]

/-- The canned overall sentiment of `generateDemoResults` (`demoMode.js`). -/
def demoSentiment : SentimentResult :=
  { overall_sentiment := "positive"
    mood_keywords := ["educational", "engaging", "informative"]
    confidence := 0.88
    short_summary := "The creator speaks in an educational and engaging tone, presenting information clearly with a positive and welcoming attitude." }

/-- The canned QA pairs of `generateDemoResults` (`demoMode.js`). -/
def demoQAPairs : List QAPair :=
  [{ question := "What is the main topic of the video?"
     answer := "The video explores various educational concepts and discusses important topics in a clear and engaging manner."
     relevantSnippets :=
       [{ segment_id := 0
          text := "In this video, we'll be exploring various concepts and discussing important topics." },
        { segment_id := 1
          text := "The content covers educational material presented in a clear and engaging manner." }] },
   { question := "How is the content presented?"
     answer := "The content is presented through visual elements and spoken explanations that work together effectively."
     relevantSnippets :=
       [{ segment_id := 2
          text := "you'll notice various visual elements and spoken explanations that work together to convey the message effectively." }] },
   { question := "What is the purpose of this video?"
     answer := "The purpose is to demonstrate what a real video analysis would produce, showing how educational content can be effectively conveyed."
     relevantSnippets :=
       [{ segment_id := 0
          text := "In this video, we'll be exploring various concepts and discussing important topics." },
        { segment_id := 3
          text := "This is a sample transcript that demonstrates what a real transcription would look like." }] }]

/-- `generateDemoResults` (`demoMode.js`): every field is canned except
`metadata.videoFile` (the caller-supplied display name) and
`metadata.processedAt` (`new Date().toISOString()`, modelled by the explicit
`now` parameter).  The handler assigns `sessionId` afterwards; the engine
itself produces no session id, modelled as the empty string. -/
def generateDemoResults (videoFile : String) (now : String) : AnalysisResult :=
  { sessionId := ""
    metadata :=
      { videoFile := videoFile
        videoDuration := 30
        processedAt := now
        processingTime := "2.5s"
        demoMode := true
        note := some "This is simulated data - no API calls were made" }
    transcript :=
      { full_text := demoTranscript
        language := "en"
        segments := demoSegments }
    sentiment := demoSentiment
    objects_detected := demoObjectsDetected
    qa_pairs := demoQAPairs }

/-- An incoming `/api/process` request (`server.js`): `hasFile` is whether
multer attached `req.file`; `apiKey`, `demoModeField` and `sessionId` are the
multipart body fields (absent modelled as `none`). -/
structure Request where
  hasFile : Bool
  originalname : String
  apiKey : Option String
  demoModeField : Option String
  sessionId : Option String
  deriving DecidableEq, Inhabited

/-- The outcomes of the external collaborator calls a single request can
make, in `server.js` stage order.  `detect` is the per-frame vision call
consumed by `detectObjectsInFrames`; the rest are consumed by exactly one
stage each. -/
structure Collaborators where
  probe : Except String ℚ
  audio : Except String Unit
  frames : Except String (List String)
  transcribe : Except String TranscriptionData
  segmentSentiment : Except String (List SegmentSentiment)
  detect : String → Except String (List FrameDetection)
  overallSentiment : Except String SentimentResult
  qa : Except String (List QAPair)

/-- A label for each external-collaborator invocation, used to record the
call trace of a request. -/
inductive CallLabel where
  | probe
  | audio
  | frames
  | transcribe
  | segmentSentiment
  | detectFrame (path : String)
  | overallSentiment
  | qa
  deriving DecidableEq

/-- Whether the uploaded media file (`req.file.path`, saved by multer
whenever a file is attached) and the per-request working directory
(`./tmp/...`) still exist after the handler finishes. -/
structure FsState where
  uploadExists : Bool
  tmpDirExists : Bool
  deriving DecidableEq, Inhabited

/-- Decidable equality for collaborator outcomes. -/
instance exceptDecEq {α β : Type} [DecidableEq α] [DecidableEq β] :
    DecidableEq (Except α β) := fun x y =>
  match x, y with
  | .ok a, .ok b =>
    if h : a = b then .isTrue (by rw [h]) else .isFalse (by simp [h])
  | .error a, .error b =>
    if h : a = b then .isTrue (by rw [h]) else .isFalse (by simp [h])
  | .ok _, .error _ => .isFalse (by simp)
  | .error _, .ok _ => .isFalse (by simp)

/-- The HTTP response of the `/api/process` handler: status code plus either
the success body or the `error` message of the JSON error body. -/
structure Response where
  status : ℕ
  body : Except String AnalysisResult
  deriving DecidableEq, Inhabited

/-- The credential-shape test of `server.js`
(`if (!apiKey || !apiKey.startsWith('sk-'))` rejects): accepted iff the key
is present, truthy (non-empty) and carries the `sk-` marker.  The JavaScript
`startsWith` is modelled as a character-list prefix test. -/
def validApiKeyShape (apiKey : Option String) : Bool :=
  match apiKey with
  | none => false
  | some s => (!(s == "")) && ("sk-".toList.isPrefixOf s.toList)

/-- The `demoMode` determination of `server.js`:
`req.body.demoMode === 'true' || apiKey === 'demo' || apiKey === 'test'`. -/
def isDemoRequest (req : Request) : Bool :=
  (req.demoModeField == some "true") || (req.apiKey == some "demo") ||
    (req.apiKey == some "test")

/-- The sampling-stride policy of `server.js`:
`framePaths.length <= 30 ? 1 : 2`. -/
def sampleRateFor (frameCount : ℕ) : ℕ :=
  if frameCount ≤ 30 then 1 else 2

/-- The session id used for the response:
`req.body.sessionId || generated`, with the `Date.now`/random generation
modelled by a fixed placeholder. -/
def effectiveSessionId (req : Request) : String :=
  req.sessionId.getD "generated-session"

/-- The real (non-demo) stage sequence of the `/api/process` handler
(`server.js`): probe duration, extract audio, extract frames, transcribe
(each aborting on error), then segment sentiment (error-absorbed), segment
enrichment, object detection (per-frame error-absorbed), overall sentiment
(error-absorbed), QA generation (error-absorbed), and result assembly.
Returns the outcome together with the collaborator call trace. -/
def runRealStages (req : Request) (c : Collaborators) (now elapsed : String) :
    Except String AnalysisResult × List CallLabel :=
  match c.probe with
  | .error e => (.error e, [.probe])
  | .ok duration =>
    match c.audio with
    | .error e => (.error e, [.probe, .audio])
    | .ok _ =>
      match c.frames with
      | .error e => (.error e, [.probe, .audio, .frames])
      | .ok framePaths =>
        match c.transcribe with
        | .error e => (.error e, [.probe, .audio, .frames, .transcribe])
        | .ok transcriptionData =>
          let segmentSentiments :=
            analyzeSegmentSentiments transcriptionData.segments c.segmentSentiment
          let enrichedSegments :=
            enrichSegments transcriptionData.segments segmentSentiments
          let sampleRate := sampleRateFor framePaths.length
          let objects_detected :=
            detectObjectsInFrames framePaths sampleRate 1 c.detect
          let sentiment := analyzeSentiment c.overallSentiment
          let qaPairs := generateQAPairs c.qa
          (.ok
            { sessionId := effectiveSessionId req
              metadata :=
                { videoFile := req.originalname
                  videoDuration := duration
                  processedAt := now
                  processingTime := elapsed
                  demoMode := false
                  note := none }
              transcript :=
                { full_text := transcriptionData.full_text
                  language := transcriptionData.language
                  segments := enrichedSegments }
              sentiment := sentiment
              objects_detected := objects_detected
              qa_pairs := qaPairs },
           [.probe, .audio, .frames, .transcribe, .segmentSentiment] ++
             (sampledFrames framePaths sampleRate).map .detectFrame ++
             [.overallSentiment, .qa])

/-- The `/api/process` handler (`server.js`): validate the upload, branch
into the demo engine (which explicitly unlinks the upload and returns before
`tempVideoPath`/`tmpDir` are assigned), reject a non-demo request whose key
fails the shape check (also before `tempVideoPath`/`tmpDir` are assigned, so
the `finally` block has nothing recorded to remove), otherwise run the real
stages inside try/catch/finally.  The `finally` cleanup is wrapped in its own
try/catch: `cleanupThrows` models a failure inside cleanup, which is logged
and never alters the response.  Returns the response, the final state of the
uploaded file and working directory, and the collaborator call trace. -/
def processRequest (req : Request) (c : Collaborators) (cleanupThrows : Bool)
    (now elapsed : String) : Response × FsState × List CallLabel :=
  if !req.hasFile then
    ({ status := 400, body := .error "No video file uploaded" },
     { uploadExists := false, tmpDirExists := false }, [])
  else if isDemoRequest req then
    let result :=
      { generateDemoResults req.originalname now with
          sessionId := effectiveSessionId req }
    ({ status := 200, body := .ok result },
     { uploadExists := false, tmpDirExists := false }, [])
  else if !validApiKeyShape req.apiKey then
    ({ status := 400
       body := .error "Invalid OpenAI API key. Use \"demo\" for demo mode without API calls." },
     { uploadExists := true, tmpDirExists := false }, [])
  else
    let (outcome, calls) := runRealStages req c now elapsed
    let fs : FsState :=
      if cleanupThrows then { uploadExists := true, tmpDirExists := true }
      else { uploadExists := false, tmpDirExists := false }
    match outcome with
    | .ok result => ({ status := 200, body := .ok result }, fs, calls)
    | .error e => ({ status := 500, body := .error e }, fs, calls)

/-! ### Derived definitions used by the verification -/

/-- The three admissible sentiment labels of the schema. -/
def validSentimentLabel (s : String) : Prop :=
  s = "positive" ∨ s = "neutral" ∨ s = "negative"

instance (s : String) : Decidable (validSentimentLabel s) := by
  unfold validSentimentLabel; infer_instance

/-- Content-level schema validity of an `AnalysisResult` (the structural
field set is enforced by the embedding's types): every enriched segment
carries an admissible sentiment label and the fixed speaker label, the
overall sentiment is admissible with confidence in `[0, 1]`, and every
object summary has `appearance_percentage` in `[0, 100]` and confidences in
`[0, 1]`. -/
def AnalysisResultSchemaValid (r : AnalysisResult) : Prop :=
  (∀ seg ∈ r.transcript.segments,
    validSentimentLabel seg.sentiment ∧ seg.speaker = "creator") ∧
  validSentimentLabel r.sentiment.overall_sentiment ∧
  0 ≤ r.sentiment.confidence ∧ r.sentiment.confidence ≤ 1 ∧
  (∀ o ∈ r.objects_detected,
    0 ≤ o.appearance_percentage ∧ o.appearance_percentage ≤ 100 ∧
    0 ≤ o.avg_confidence ∧ o.avg_confidence ≤ 1 ∧
    ∀ f ∈ o.frames, 0 ≤ f.confidence ∧ f.confidence ≤ 1)

instance (r : AnalysisResult) : Decidable (AnalysisResultSchemaValid r) := by
  unfold AnalysisResultSchemaValid; infer_instance

/-- Erase the only wall-clock-dependent field of a result. -/
def eraseProcessedAt (r : AnalysisResult) : AnalysisResult :=
  { r with metadata := { r.metadata with processedAt := "" } }

/-- The grouping key of a `(frame, detection)` pair. -/
def pairKey (p : FrameData × FrameDetection) : String := jsToLower p.2.name

/-- All `(frame, detection)` pairs visited by the nested grouping loops, in
traversal order. -/
def allPairs (dbf : List FrameData) : List (FrameData × FrameDetection) :=
  dbf.flatMap (fun fd => fd.objects.map (fun o => (fd, o)))

/-- The frame entries appended to the group named `n` by a pair list. -/
def entriesFor (n : String) (ps : List (FrameData × FrameDetection)) :
    List DetectedObjectFrame :=
  (ps.filter (fun p => pairKey p = n)).map (fun p => mkEntry p.1 p.2)

/-- The confidences appended to the group named `n` by a pair list. -/
def confsFor (n : String) (ps : List (FrameData × FrameDetection)) :
    List ℚ :=
  (ps.filter (fun p => pairKey p = n)).map (fun p => p.2.confidence)

/-- The grouping fold over a flat pair list. -/
def groupPairs (ps : List (FrameData × FrameDetection))
    (m : List ObjGroup) : List ObjGroup :=
  ps.foldl (fun m' p => insertPair m' p.1 p.2) m

/-- Group lookup by name, i.e. the `objectMap[objName]` access. -/
def findGroup (m : List ObjGroup) (n : String) : Option ObjGroup :=
  m.find? (fun g => g.name = n)

/-! ### Sampling lemmas -/

/-- The index-tracking filter only depends on the index modulo the stride. -/
lemma sampledFramesGo_congr_mod (sr : ℕ) :
    ∀ (l : List String) (n m : ℕ), n % sr = m % sr →
      sampledFramesGo sr l n = sampledFramesGo sr l m := by
  intro l
  induction l with
  | nil => intro n m _; rfl
  | cons p rest ih =>
    intro n m h
    have h1 : (n + 1) % sr = (m + 1) % sr := by
      rw [Nat.add_mod n 1 sr, Nat.add_mod m 1 sr, h]
    simp only [sampledFramesGo, h, ih (n + 1) (m + 1) h1]

/-- Starting the index-tracking filter at a positive residue `j` skips the
first `sr - j` elements. -/
lemma sampledFramesGo_skip (sr : ℕ) :
    ∀ (k : ℕ) (l : List String) (j : ℕ), j + k = sr → 0 < j →
      sampledFramesGo sr l j = sampledFramesGo sr (l.drop k) 0 := by
  intro k
  induction k with
  | zero =>
    intro l j hjk _
    have hj : j = sr := by omega
    rw [List.drop_zero, hj]
    exact sampledFramesGo_congr_mod sr l sr 0 (by simp)
  | succ k ih =>
    intro l j hjk hj
    cases l with
    | nil => simp [sampledFramesGo]
    | cons p rest =>
      have hjlt : j < sr := by omega
      have hmod : ¬ j % sr = 0 := by
        rw [Nat.mod_eq_of_lt hjlt]; omega
      simp only [sampledFramesGo, if_neg hmod, List.drop_succ_cons]
      exact ih rest (j + 1) (by omega) (by omega)

/-- The sampled-frame list is exactly the subsequence of the full frame list
at 0-based indices `0, sr, 2·sr, …`: its `i`-th element is the full list's
`(i·sr)`-th element, and it has an element at `i` exactly when the full list
has one at `i·sr`. -/
lemma sampledFrames_getElem? (sr : ℕ) (hsr : 0 < sr) :
    ∀ (i : ℕ) (l : List String), (sampledFrames l sr)[i]? = l[i * sr]? := by
  intro i
  induction i with
  | zero =>
    intro l
    cases l with
    | nil => rfl
    | cons p rest =>
      simp [sampledFrames, sampledFramesGo]
  | succ i ih =>
    intro l
    cases l with
    | nil => simp [sampledFrames, sampledFramesGo]
    | cons p rest =>
      have hgo : sampledFrames (p :: rest) sr =
          p :: sampledFramesGo sr rest 1 := by
        simp [sampledFrames, sampledFramesGo]
      rw [hgo]
      rcases Nat.lt_or_ge 1 sr with hsr2 | hsr1
      · have hskip : sampledFramesGo sr rest 1 =
            sampledFrames (rest.drop (sr - 1)) sr :=
          sampledFramesGo_skip sr (sr - 1) rest 1 (by omega) (by omega)
        rw [List.getElem?_cons_succ, hskip, ih (rest.drop (sr - 1)),
          List.getElem?_drop]
        have hmul : (i + 1) * sr = i * sr + sr := by ring
        have harith : (i + 1) * sr = (sr - 1 + i * sr) + 1 := by omega
        rw [harith, List.getElem?_cons_succ]
      · have hone : sr = 1 := by omega
        subst hone
        have h0 : sampledFramesGo 1 rest 1 = sampledFrames rest 1 :=
          sampledFramesGo_congr_mod 1 rest 1 0 (by simp)
        rw [List.getElem?_cons_succ, h0, ih rest]
        simp

/-- The sampled-frame list is never longer than the full frame list. -/
lemma sampledFramesGo_length_le (sr : ℕ) :
    ∀ (l : List String) (n : ℕ),
      (sampledFramesGo sr l n).length ≤ l.length := by
  intro l
  induction l with
  | nil => intro n; simp [sampledFramesGo]
  | cons p rest ih =>
    intro n
    simp only [sampledFramesGo]
    by_cases h : n % sr = 0
    · simpa [h] using Nat.succ_le_succ (ih (n + 1))
    · simp only [if_neg h, List.length_cons]
      exact Nat.le_succ_of_le (ih (n + 1))

/-- C4: the detection collaborator is invoked exactly once per sampled
ordinal.  The stride is 1 for at most 30 frames and 2 otherwise
(`server.js`, `sampleRate`); the sampled subsequence submitted to per-frame
detection consists exactly of the frames at 1-based ordinals
`1, 1+sr, 1+2·sr, …` (0-based indices `i·sr`), characterised positionally;
and for a four-frame sequence with stride 2 exactly the first and third
frames are submitted (two calls). -/
theorem c4_frame_sampling (fp : List String) (sr N : ℕ) (hsr : 0 < sr) :
    (N ≤ 30 → sampleRateFor N = 1) ∧
    (30 < N → sampleRateFor N = 2) ∧
    (∀ i : ℕ, (sampledFrames fp sr)[i]? = fp[i * sr]?) ∧
    sampledFrames ["frame-0001.jpg", "frame-0002.jpg", "frame-0003.jpg",
      "frame-0004.jpg"] 2 = ["frame-0001.jpg", "frame-0003.jpg"] := by
  refine ⟨?_, ?_, fun i => sampledFrames_getElem? sr hsr i fp, by decide⟩
  · intro h; simp [sampleRateFor, h]
  · intro h; simp [sampleRateFor, Nat.not_le.mpr h]

/-- Witness for C4 at a concrete input: stride 2 over a three-frame list
picks the frame at index `1 * 2 = 2` as its second sampled element. -/
theorem c4_frame_sampling_witness :
    0 < 2 ∧
      (sampledFrames ["a", "b", "c"] 2)[1]? =
        (["a", "b", "c"] : List String)[1 * 2]? :=
  ⟨by decide, (c4_frame_sampling ["a", "b", "c"] 2 4 (by decide)).2.2.1 1⟩

/-! ### Demo engine properties -/

/-- C6 (amended): for every display-name input the demo engine's output has
`metadata.demoMode = true` and is schema-valid, and two calls with the same
display name agree on every field except `metadata.processedAt`, which
copies the wall clock (`new Date().toISOString()`), so full output equality
fails across distinct call times. -/
theorem c6_demo_engine_amended (name now now' : String) :
    (generateDemoResults name now).metadata.demoMode = true ∧
    AnalysisResultSchemaValid (generateDemoResults name now) ∧
    eraseProcessedAt (generateDemoResults name now) =
      eraseProcessedAt (generateDemoResults name now') := by
  refine ⟨rfl, ?_, rfl⟩
  refine ⟨?_, ?_, ?_, ?_, ?_⟩
  · show ∀ seg ∈ demoSegments,
        validSentimentLabel seg.sentiment ∧ seg.speaker = "creator"
    decide
  · show validSentimentLabel demoSentiment.overall_sentiment
    decide
  · show (0 : ℚ) ≤ demoSentiment.confidence
    norm_num [demoSentiment]
  · show demoSentiment.confidence ≤ 1
    norm_num [demoSentiment]
  · show ∀ o ∈ demoObjectsDetected,
        0 ≤ o.appearance_percentage ∧ o.appearance_percentage ≤ 100 ∧
        0 ≤ o.avg_confidence ∧ o.avg_confidence ≤ 1 ∧
        ∀ f ∈ o.frames, 0 ≤ f.confidence ∧ f.confidence ≤ 1
    simp only [demoObjectsDetected, List.forall_mem_cons, List.forall_mem_nil]
    norm_num

/-- C6 counterexample: the demo engine is not deterministic in the sense of
full result equality — two calls with the same display name but different
wall-clock readings differ (in `metadata.processedAt`). -/
theorem c6_demo_engine_counterexample :
    generateDemoResults "video.mp4" "2024-01-01T00:00:00.000Z" ≠
      generateDemoResults "video.mp4" "2024-01-02T00:00:00.000Z" := by
  intro h
  have h2 := congrArg (fun r => r.metadata.processedAt) h
  simp [generateDemoResults] at h2

/-- Witness for C6 at a concrete display name and two concrete wall-clock
readings. -/
theorem c6_demo_engine_witness :
    (generateDemoResults "clip.mp4" "t1").metadata.demoMode = true ∧
    AnalysisResultSchemaValid (generateDemoResults "clip.mp4" "t1") ∧
    eraseProcessedAt (generateDemoResults "clip.mp4" "t1") =
      eraseProcessedAt (generateDemoResults "clip.mp4" "t2") :=
  c6_demo_engine_amended "clip.mp4" "t1" "t2"

/-! ### Segment enricher properties -/

/-- C7: the enricher yields exactly one enriched segment per raw segment, in
the same order with pairwise-matching ids; each output carries the fixed
speaker label and the raw segment's id, start, end and text unchanged (the
enriched segment is a fresh value, the raw fields are copied, never
modified); a segment whose id has no matching sentiment record receives
`sentiment = "neutral"` and `mood_keywords = ["unknown"]`. -/
theorem c7_segment_enricher (segments : List RawSegment)
    (sents : List SegmentSentiment) :
    (enrichSegments segments sents).length = segments.length ∧
    List.Forall₂ (fun (seg : RawSegment) (out : EnrichedSegment) =>
        out.id = seg.id ∧ out.start = seg.start ∧ out.«end» = seg.«end» ∧
        out.text = seg.text ∧ out.speaker = "creator" ∧
        (sents.find? (fun s => s.segment_id = seg.id) = none →
          out.sentiment = "neutral" ∧ out.mood_keywords = ["unknown"]))
      segments (enrichSegments segments sents) := by
  constructor
  · simp [enrichSegments]
  · rw [enrichSegments, List.forall₂_map_right_iff, List.forall₂_same]
    intro seg _
    refine ⟨rfl, rfl, rfl, rfl, rfl, ?_⟩
    intro hnone
    simp [hnone]

/-- Witness for C7 at concrete inputs: two raw segments, a sentiment record
matching only the first. -/
theorem c7_segment_enricher_witness :
    (enrichSegments
        [{ id := 0, start := 0, «end» := 5, text := "hello" },
         { id := 1, start := 5, «end» := 9, text := "bye" }]
        [{ segment_id := 0, sentiment := "positive",
           mood_keywords := ["upbeat"] }]).length =
      ([{ id := 0, start := 0, «end» := 5, text := "hello" },
        { id := 1, start := 5, «end» := 9, text := "bye" }] :
        List RawSegment).length ∧
    List.Forall₂ (fun (seg : RawSegment) (out : EnrichedSegment) =>
        out.id = seg.id ∧ out.start = seg.start ∧ out.«end» = seg.«end» ∧
        out.text = seg.text ∧ out.speaker = "creator" ∧
        (([{ segment_id := 0, sentiment := "positive",
             mood_keywords := ["upbeat"] }] :
            List SegmentSentiment).find?
              (fun s => s.segment_id = seg.id) = none →
          out.sentiment = "neutral" ∧ out.mood_keywords = ["unknown"]))
      [{ id := 0, start := 0, «end» := 5, text := "hello" },
       { id := 1, start := 5, «end» := 9, text := "bye" }]
      (enrichSegments
        [{ id := 0, start := 0, «end» := 5, text := "hello" },
         { id := 1, start := 5, «end» := 9, text := "bye" }]
        [{ segment_id := 0, sentiment := "positive",
           mood_keywords := ["upbeat"] }]) :=
  c7_segment_enricher
    [{ id := 0, start := 0, «end» := 5, text := "hello" },
     { id := 1, start := 5, «end» := 9, text := "bye" }]
    [{ segment_id := 0, sentiment := "positive", mood_keywords := ["upbeat"] }]

/-! ### Credential validation (C5) -/

/-- C5 (amended): a processing request carrying a media payload, **not**
carrying the explicit demo form flag, whose credential is neither of the two
demo sentinels nor of the accepted API-key shape (non-empty with the `sk-`
marker) is rejected with status 400 and the fixed error body, and no
external collaborator is invoked.  (The explicit demo flag must be excluded:
`server.js` computes `demoMode` before the key-shape check, so a flagged
request with an arbitrary credential is served by the demo engine instead of
being rejected.) -/
theorem c5_credential_validation_amended (req : Request) (c : Collaborators)
    (ct : Bool) (now elapsed : String)
    (hfile : req.hasFile = true)
    (hflag : req.demoModeField ≠ some "true")
    (hdemo : req.apiKey ≠ some "demo")
    (htest : req.apiKey ≠ some "test")
    (hshape : validApiKeyShape req.apiKey = false) :
    (processRequest req c ct now elapsed).1.status = 400 ∧
    (processRequest req c ct now elapsed).1.body =
      Except.error
        "Invalid OpenAI API key. Use \"demo\" for demo mode without API calls." ∧
    (processRequest req c ct now elapsed).2.2 = [] := by
  have hdemoF : isDemoRequest req = false := by
    simp only [isDemoRequest, Bool.or_eq_false_iff, beq_eq_false_iff_ne]
    exact ⟨⟨hflag, hdemo⟩, htest⟩
  refine ⟨?_, ?_, ?_⟩ <;>
    simp [processRequest, hfile, hdemoF, hshape]

/-- C5 counterexample: a request with a media payload whose credential
`"garbage"` is neither a demo sentinel nor `sk-`-shaped, but whose demo form
field is `"true"`, is **not** rejected — it is answered with status 200 and
a success body. -/
theorem c5_credential_validation_counterexample :
    (processRequest
        { hasFile := true, originalname := "v.mp4",
          apiKey := some "garbage", demoModeField := some "true",
          sessionId := none }
        ⟨.ok 30, .ok (), .ok [], .ok ⟨"", "en", []⟩, .ok [],
          fun _ => .error "offline", .ok ⟨"neutral", [], 0, ""⟩, .ok []⟩
        false "t0" "0s").1.status = 200 ∧
    (processRequest
        { hasFile := true, originalname := "v.mp4",
          apiKey := some "garbage", demoModeField := some "true",
          sessionId := none }
        ⟨.ok 30, .ok (), .ok [], .ok ⟨"", "en", []⟩, .ok [],
          fun _ => .error "offline", .ok ⟨"neutral", [], 0, ""⟩, .ok []⟩
        false "t0" "0s").1.body.isOk = true := by
  constructor <;> rfl

/-- Witness for C5 at a concrete rejected request. -/
theorem c5_credential_validation_witness :
    validApiKeyShape (some "not-a-key") = false ∧
    (processRequest
        { hasFile := true, originalname := "v.mp4",
          apiKey := some "not-a-key", demoModeField := none,
          sessionId := none }
        ⟨.ok 30, .ok (), .ok [], .ok ⟨"", "en", []⟩, .ok [],
          fun _ => .error "offline", .ok ⟨"neutral", [], 0, ""⟩, .ok []⟩
        true "t0" "0s").1.status = 400 :=
  ⟨by decide,
    (c5_credential_validation_amended
      { hasFile := true, originalname := "v.mp4",
        apiKey := some "not-a-key", demoModeField := none,
        sessionId := none }
      ⟨.ok 30, .ok (), .ok [], .ok ⟨"", "en", []⟩, .ok [],
        fun _ => .error "offline", .ok ⟨"neutral", [], 0, ""⟩, .ok []⟩
      true "t0" "0s" rfl (by simp) (by simp) (by simp) (by decide)).1⟩

/-! ### Resource cleanup (C1) -/

/-- C1 (amended): the uploaded media file and the per-request working
directory are removed on the demo exit path and on every real-pipeline exit
path (success and stage failure alike, the `finally` cleanup not throwing);
and a failure inside cleanup itself never changes the response or the call
trace (it is only logged).  The removal guarantee does **not** extend to the
invalid-credential validation failure: there the handler returns before
`tempVideoPath`/`tmpDir` are recorded, so the `finally` block removes
nothing and the uploaded file is left behind (see the counterexample). -/
theorem c1_cleanup_amended (req : Request) (c : Collaborators)
    (now elapsed : String) (hfile : req.hasFile = true) :
    (isDemoRequest req = true →
      (processRequest req c false now elapsed).2.1 =
        { uploadExists := false, tmpDirExists := false }) ∧
    (isDemoRequest req = false → validApiKeyShape req.apiKey = true →
      (processRequest req c false now elapsed).2.1 =
        { uploadExists := false, tmpDirExists := false }) ∧
    (∀ ct : Bool,
      (processRequest req c ct now elapsed).1 =
        (processRequest req c false now elapsed).1 ∧
      (processRequest req c ct now elapsed).2.2 =
        (processRequest req c false now elapsed).2.2) := by
  refine ⟨?_, ?_, ?_⟩
  · intro hd
    simp [processRequest, hfile, hd]
  · intro hd hk
    rcases houtcome : runRealStages req c now elapsed with ⟨outcome, calls⟩
    cases outcome <;> simp [processRequest, hfile, hd, hk, houtcome]
  · intro ct
    cases ct
    · exact ⟨rfl, rfl⟩
    · by_cases hd : isDemoRequest req
      · simp [processRequest, hfile, hd]
      · by_cases hk : validApiKeyShape req.apiKey
        · rcases houtcome : runRealStages req c now elapsed with ⟨outcome, calls⟩
          cases outcome <;>
            simp [processRequest, hfile, hd, hk, houtcome]
        · simp [processRequest, hfile, hd, hk]

/-- C1 counterexample: a request carrying an uploaded file with an invalid
(non-demo, non-`sk-`) credential is rejected, and on this exit path the
uploaded media file is **not** removed — `tempVideoPath` is only assigned
after the credential check, so the `finally` cleanup removes nothing. -/
theorem c1_cleanup_counterexample :
    (processRequest
        { hasFile := true, originalname := "v.mp4",
          apiKey := some "not-a-key", demoModeField := none,
          sessionId := none }
        ⟨.ok 30, .ok (), .ok [], .ok ⟨"", "en", []⟩, .ok [],
          fun _ => .error "offline", .ok ⟨"neutral", [], 0, ""⟩, .ok []⟩
        false "t0" "0s").1.status = 400 ∧
    (processRequest
        { hasFile := true, originalname := "v.mp4",
          apiKey := some "not-a-key", demoModeField := none,
          sessionId := none }
        ⟨.ok 30, .ok (), .ok [], .ok ⟨"", "en", []⟩, .ok [],
          fun _ => .error "offline", .ok ⟨"neutral", [], 0, ""⟩, .ok []⟩
        false "t0" "0s").2.1.uploadExists = true := by
  constructor <;> rfl

/-- Witness for C1: on a concrete demo-path request the upload and working
directory are gone afterwards. -/
theorem c1_cleanup_witness :
    ({ hasFile := true, originalname := "v.mp4", apiKey := some "demo",
       demoModeField := none, sessionId := none } : Request).hasFile = true ∧
    (processRequest
        { hasFile := true, originalname := "v.mp4", apiKey := some "demo",
          demoModeField := none, sessionId := none }
        ⟨.ok 30, .ok (), .ok [], .ok ⟨"", "en", []⟩, .ok [],
          fun _ => .error "offline", .ok ⟨"neutral", [], 0, ""⟩, .ok []⟩
        false "t0" "0s").2.1 =
      { uploadExists := false, tmpDirExists := false } :=
  ⟨rfl,
    (c1_cleanup_amended
      { hasFile := true, originalname := "v.mp4", apiKey := some "demo",
        demoModeField := none, sessionId := none }
      ⟨.ok 30, .ok (), .ok [], .ok ⟨"", "en", []⟩, .ok [],
        fun _ => .error "offline", .ok ⟨"neutral", [], 0, ""⟩, .ok []⟩
      "t0" "0s" rfl).1 (by rfl)⟩

/-! ### Stage failure semantics (C2) -/

/-- C2 (amended): on a real-path request, a throw from the media probe,
audio extraction, frame extraction, or transcription collaborator aborts the
pipeline at that stage and the caller receives a failure response carrying
the triggering message, with no retry; a throw from the segment-sentiment,
overall-sentiment, or QA collaborator does **not** abort the pipeline —
those modules absorb the error with documented fallbacks and the request
still completes with status 200 regardless of their outcomes (and of
per-frame detection outcomes). -/
theorem c2_stage_failure_amended (req : Request) (c : Collaborators)
    (ct : Bool) (now elapsed : String)
    (hfile : req.hasFile = true) (hdemo : isDemoRequest req = false)
    (hkey : validApiKeyShape req.apiKey = true) :
    (∀ e, c.probe = .error e →
      (processRequest req c ct now elapsed).1 =
        { status := 500, body := .error e }) ∧
    (∀ d e, c.probe = .ok d → c.audio = .error e →
      (processRequest req c ct now elapsed).1 =
        { status := 500, body := .error e }) ∧
    (∀ d e, c.probe = .ok d → c.audio = .ok () → c.frames = .error e →
      (processRequest req c ct now elapsed).1 =
        { status := 500, body := .error e }) ∧
    (∀ d fp e, c.probe = .ok d → c.audio = .ok () → c.frames = .ok fp →
      c.transcribe = .error e →
      (processRequest req c ct now elapsed).1 =
        { status := 500, body := .error e }) ∧
    (∀ d fp td, c.probe = .ok d → c.audio = .ok () → c.frames = .ok fp →
      c.transcribe = .ok td →
      (processRequest req c ct now elapsed).1.status = 200 ∧
      (processRequest req c ct now elapsed).1.body.isOk = true) := by
  refine ⟨?_, ?_, ?_, ?_, ?_⟩
  · intro e hp
    simp [processRequest, runRealStages, hfile, hdemo, hkey, hp]
  · intro d e hp ha
    simp [processRequest, runRealStages, hfile, hdemo, hkey, hp, ha]
  · intro d e hp ha hf
    simp [processRequest, runRealStages, hfile, hdemo, hkey, hp, ha, hf]
  · intro d fp e hp ha hf ht
    simp [processRequest, runRealStages, hfile, hdemo, hkey, hp, ha, hf, ht]
  · intro d fp td hp ha hf ht
    constructor <;>
      simp [processRequest, runRealStages, hfile, hdemo, hkey, hp, ha, hf, ht,
        Except.isOk, Except.toBool]

/-- C2 counterexample: a real-path request whose overall-sentiment
collaborator call throws still completes successfully — the caller receives
status 200 with a success body, not a failure response. -/
theorem c2_stage_failure_counterexample :
    (processRequest
        { hasFile := true, originalname := "v.mp4", apiKey := some "sk-abc",
          demoModeField := none, sessionId := none }
        ⟨.ok 30, .ok (), .ok ["f1"],
          .ok { full_text := "hi", language := "en",
                segments := [{ id := 0, start := 0, «end» := 5, text := "hi" }] },
          .ok [], fun _ => .error "vision down", .error "sentiment down",
          .ok []⟩
        false "t0" "1s").1.status = 200 ∧
    (processRequest
        { hasFile := true, originalname := "v.mp4", apiKey := some "sk-abc",
          demoModeField := none, sessionId := none }
        ⟨.ok 30, .ok (), .ok ["f1"],
          .ok { full_text := "hi", language := "en",
                segments := [{ id := 0, start := 0, «end» := 5, text := "hi" }] },
          .ok [], fun _ => .error "vision down", .error "sentiment down",
          .ok []⟩
        false "t0" "1s").1.body.isOk = true := by
  constructor <;> rfl

/-- Witness for C2: a concrete real-path request whose transcription
collaborator throws is answered with status 500 carrying the message. -/
theorem c2_stage_failure_witness :
    validApiKeyShape (some "sk-abc") = true ∧
    (processRequest
        { hasFile := true, originalname := "v.mp4", apiKey := some "sk-abc",
          demoModeField := none, sessionId := none }
        ⟨.ok 30, .ok (), .ok ["f1"], .error "whisper down", .ok [],
          fun _ => .error "vision down", .ok ⟨"neutral", [], 0, ""⟩, .ok []⟩
        false "t0" "1s").1 =
      { status := 500, body := .error "whisper down" } :=
  ⟨by decide,
    (c2_stage_failure_amended
      { hasFile := true, originalname := "v.mp4", apiKey := some "sk-abc",
        demoModeField := none, sessionId := none }
      ⟨.ok 30, .ok (), .ok ["f1"], .error "whisper down", .ok [],
        fun _ => .error "vision down", .ok ⟨"neutral", [], 0, ""⟩, .ok []⟩
      false "t0" "1s" rfl (by decide) (by decide)).2.2.2.1 30 ["f1"]
      "whisper down" rfl rfl rfl rfl⟩

/-! ### Batch segment-sentiment fallback (C10) -/

/-- Enriching against the synthesized fallback records yields the neutral
default on every segment. -/
lemma enrichSegments_fallback_neutral (segments : List RawSegment)
    (e : String) :
    ∀ out ∈ enrichSegments segments
        (analyzeSegmentSentiments segments (.error e)),
      out.sentiment = "neutral" ∧ out.mood_keywords = ["unknown"] := by
  intro out hout
  rw [enrichSegments, List.mem_map] at hout
  obtain ⟨seg, _, rfl⟩ := hout
  rcases hfind : (analyzeSegmentSentiments segments (.error e)).find?
      (fun s => s.segment_id = seg.id) with _ | x
  · simp [hfind]
  · have hxmem := List.mem_of_find?_eq_some hfind
    rw [show analyzeSegmentSentiments segments (Except.error e) =
          segments.map (fun s =>
            { segment_id := s.id, sentiment := "neutral",
              mood_keywords := ["unknown"] }) from rfl,
      List.mem_map] at hxmem
    obtain ⟨seg2, _, rfl⟩ := hxmem
    simp [hfind]

/-- C10: if the batch segment-sentiment collaborator call throws, the
pipeline does not abort — `analyzeSegmentSentiments` synthesizes one record
`{segment_id, "neutral", ["unknown"]}` per input segment, every enriched
segment built from that fallback carries the neutral default, and the
request still completes with status 200 and a success body in which every
enriched segment is defaulted to neutral. -/
theorem c10_segment_sentiment_fallback (segments : List RawSegment)
    (e : String) (req : Request) (c : Collaborators) (ct : Bool)
    (now elapsed : String) (d : ℚ) (fp : List String)
    (td : TranscriptionData)
    (hfile : req.hasFile = true) (hdemo : isDemoRequest req = false)
    (hkey : validApiKeyShape req.apiKey = true)
    (hp : c.probe = .ok d) (ha : c.audio = .ok ())
    (hf : c.frames = .ok fp) (ht : c.transcribe = .ok td)
    (hs : c.segmentSentiment = .error e) :
    analyzeSegmentSentiments segments (.error e) =
      segments.map (fun seg =>
        { segment_id := seg.id, sentiment := "neutral",
          mood_keywords := ["unknown"] }) ∧
    (∀ out ∈ enrichSegments segments
        (analyzeSegmentSentiments segments (.error e)),
      out.sentiment = "neutral" ∧ out.mood_keywords = ["unknown"]) ∧
    (processRequest req c ct now elapsed).1.status = 200 ∧
    (∃ r, (processRequest req c ct now elapsed).1.body = Except.ok r ∧
      ∀ out ∈ r.transcript.segments,
        out.sentiment = "neutral" ∧ out.mood_keywords = ["unknown"]) := by
  refine ⟨rfl, enrichSegments_fallback_neutral segments e, ?_, ?_⟩
  · simp [processRequest, runRealStages, hfile, hdemo, hkey, hp, ha, hf, ht]
  · have hbody : (processRequest req c ct now elapsed).1.body = Except.ok
        { sessionId := effectiveSessionId req
          metadata :=
            { videoFile := req.originalname, videoDuration := d
              processedAt := now, processingTime := elapsed
              demoMode := false, note := none }
          transcript :=
            { full_text := td.full_text, language := td.language
              segments := enrichSegments td.segments
                (analyzeSegmentSentiments td.segments (.error e)) }
          sentiment := analyzeSentiment c.overallSentiment
          objects_detected :=
            detectObjectsInFrames fp (sampleRateFor fp.length) 1 c.detect
          qa_pairs := generateQAPairs c.qa } := by
      simp [processRequest, runRealStages, hfile, hdemo, hkey, hp, ha, hf,
        ht, hs]
    exact ⟨_, hbody, enrichSegments_fallback_neutral td.segments e⟩

/-- Witness for C10 at concrete inputs: one raw segment, a throwing batch
call, and a concrete real-path request that still completes. -/
theorem c10_segment_sentiment_fallback_witness :
    validApiKeyShape (some "sk-abc") = true ∧
    (processRequest
        { hasFile := true, originalname := "v.mp4", apiKey := some "sk-abc",
          demoModeField := none, sessionId := none }
        ⟨.ok 30, .ok (), .ok ["f1"],
          .ok { full_text := "hi", language := "en",
                segments := [{ id := 0, start := 0, «end» := 5, text := "hi" }] },
          .error "batch down", fun _ => .error "vision down",
          .ok ⟨"neutral", [], 0, ""⟩, .ok []⟩
        false "t0" "1s").1.status = 200 :=
  ⟨by decide,
    (c10_segment_sentiment_fallback
      [{ id := 0, start := 0, «end» := 5, text := "hi" }] "batch down"
      { hasFile := true, originalname := "v.mp4", apiKey := some "sk-abc",
        demoModeField := none, sessionId := none }
      ⟨.ok 30, .ok (), .ok ["f1"],
        .ok { full_text := "hi", language := "en",
              segments := [{ id := 0, start := 0, «end» := 5, text := "hi" }] },
        .error "batch down", fun _ => .error "vision down",
        .ok ⟨"neutral", [], 0, ""⟩, .ok []⟩
      false "t0" "1s" 30
      ["f1"]
      { full_text := "hi", language := "en",
        segments := [{ id := 0, start := 0, «end» := 5, text := "hi" }] }
      rfl (by decide) (by decide) rfl rfl rfl rfl rfl).2.2.1⟩

/-! ### Per-frame detection failure degradation (C8) -/

/-- The grouping fold leaves the accumulator unchanged when every frame
contributes no detections. -/
lemma buildObjectMap_foldl_of_no_objects :
    ∀ (dbf : List FrameData) (m : List ObjGroup),
      (∀ fd ∈ dbf, fd.objects = []) →
      dbf.foldl (fun m' fd =>
        fd.objects.foldl (fun m'' o => insertPair m'' fd o) m') m = m := by
  intro dbf
  induction dbf with
  | nil => intro m _; rfl
  | cons fd rest ih =>
    intro m h
    rw [List.foldl_cons, h fd (List.mem_cons_self fd rest)]
    exact ih m (fun fd' h' => h fd' (List.mem_cons_of_mem fd h'))

/-- If every per-frame detection call fails, aggregation yields the empty
summary list. -/
lemma detectObjectsInFrames_of_all_error (fp : List String) (sr : ℕ)
    (fps : ℚ) (detect : String → Except String (List FrameDetection))
    (h : ∀ p, ∃ err, detect p = .error err) :
    detectObjectsInFrames fp sr fps detect = [] := by
  have hobjs : ∀ fd ∈ detectionsByFrame fp sr fps detect, fd.objects = [] := by
    intro fd hfd
    rw [detectionsByFrame, List.mem_map] at hfd
    obtain ⟨path, _, rfl⟩ := hfd
    obtain ⟨err, herr⟩ := h path
    simp [herr, detectObjectsInFrame]
  rw [detectObjectsInFrames, buildObjectMap,
    buildObjectMap_foldl_of_no_objects _ _ hobjs]
  rfl

/-- C8: if every per-frame detection call fails, the aggregation engine
returns an empty `objects_detected` list and the request still completes
successfully with a full result (status 200, success body, empty object
list); a single frame's detection failure contributes zero detections for
that frame (`detectObjectsInFrame` maps an error to `[]`) and never aborts
aggregation. -/
theorem c8_detection_failure_degrades (framePaths : List String) (sr : ℕ)
    (fps : ℚ) (detect : String → Except String (List FrameDetection))
    (req : Request) (c : Collaborators) (ct : Bool) (now elapsed : String)
    (d : ℚ) (fp : List String) (td : TranscriptionData)
    (hall : ∀ p, ∃ err, detect p = .error err)
    (hfile : req.hasFile = true) (hdemo : isDemoRequest req = false)
    (hkey : validApiKeyShape req.apiKey = true)
    (hp : c.probe = .ok d) (ha : c.audio = .ok ())
    (hf : c.frames = .ok fp) (ht : c.transcribe = .ok td)
    (hcall : ∀ p, ∃ err, c.detect p = .error err) :
    (∀ err, detectObjectsInFrame (Except.error err) = []) ∧
    detectObjectsInFrames framePaths sr fps detect = [] ∧
    (processRequest req c ct now elapsed).1.status = 200 ∧
    (∃ r, (processRequest req c ct now elapsed).1.body = Except.ok r ∧
      r.objects_detected = []) := by
  refine ⟨fun _ => rfl,
    detectObjectsInFrames_of_all_error framePaths sr fps detect hall, ?_, ?_⟩
  · simp [processRequest, runRealStages, hfile, hdemo, hkey, hp, ha, hf, ht]
  · have hbody : (processRequest req c ct now elapsed).1.body = Except.ok
        { sessionId := effectiveSessionId req
          metadata :=
            { videoFile := req.originalname, videoDuration := d
              processedAt := now, processingTime := elapsed
              demoMode := false, note := none }
          transcript :=
            { full_text := td.full_text, language := td.language
              segments := enrichSegments td.segments
                (analyzeSegmentSentiments td.segments c.segmentSentiment) }
          sentiment := analyzeSentiment c.overallSentiment
          objects_detected :=
            detectObjectsInFrames fp (sampleRateFor fp.length) 1 c.detect
          qa_pairs := generateQAPairs c.qa } := by
      simp [processRequest, runRealStages, hfile, hdemo, hkey, hp, ha, hf, ht]
    exact ⟨_, hbody,
      detectObjectsInFrames_of_all_error fp (sampleRateFor fp.length) 1
        c.detect hcall⟩

/-- Witness for C8 at concrete inputs: two frames whose detection calls both
fail, inside a real-path request that still completes. -/
theorem c8_detection_failure_degrades_witness :
    (∀ p : String, ∃ err, (fun _ : String =>
      (Except.error "vision down" : Except String (List FrameDetection))) p =
        .error err) ∧
    detectObjectsInFrames ["f1", "f2"] 1 1
      (fun _ => .error "vision down") = [] ∧
    (processRequest
        { hasFile := true, originalname := "v.mp4", apiKey := some "sk-abc",
          demoModeField := none, sessionId := none }
        ⟨.ok 30, .ok (), .ok ["f1", "f2"],
          .ok { full_text := "hi", language := "en", segments := [] },
          .ok [], fun _ => .error "vision down",
          .ok ⟨"neutral", [], 0, ""⟩, .ok []⟩
        false "t0" "1s").1.status = 200 :=
  ⟨fun p => ⟨"vision down", rfl⟩,
    (c8_detection_failure_degrades ["f1", "f2"] 1 1
      (fun _ => .error "vision down")
      { hasFile := true, originalname := "v.mp4", apiKey := some "sk-abc",
        demoModeField := none, sessionId := none }
      ⟨.ok 30, .ok (), .ok ["f1", "f2"],
        .ok { full_text := "hi", language := "en", segments := [] },
        .ok [], fun _ => .error "vision down",
        .ok ⟨"neutral", [], 0, ""⟩, .ok []⟩
      false "t0" "1s" 30 ["f1", "f2"]
      { full_text := "hi", language := "en", segments := [] }
      (fun p => ⟨"vision down", rfl⟩) rfl (by decide) (by decide)
      rfl rfl rfl rfl (fun p => ⟨"vision down", rfl⟩)).2.1,
    (c8_detection_failure_degrades ["f1", "f2"] 1 1
      (fun _ => .error "vision down")
      { hasFile := true, originalname := "v.mp4", apiKey := some "sk-abc",
        demoModeField := none, sessionId := none }
      ⟨.ok 30, .ok (), .ok ["f1", "f2"],
        .ok { full_text := "hi", language := "en", segments := [] },
        .ok [], fun _ => .error "vision down",
        .ok ⟨"neutral", [], 0, ""⟩, .ok []⟩
      false "t0" "1s" 30 ["f1", "f2"]
      { full_text := "hi", language := "en", segments := [] }
      (fun p => ⟨"vision down", rfl⟩) rfl (by decide) (by decide)
      rfl rfl rfl rfl (fun p => ⟨"vision down", rfl⟩)).2.2.1⟩

/-! ### Grouping characterization

The nested `forEach` grouping of `detectObjectsInFrames` is characterised:
flattening the loops to a fold over `(frame, detection)` pairs, each
resulting group's `frames` list is exactly the per-pair entries whose
lower-cased name matches the group, in traversal order.  -/

/-- The nested grouping fold equals the fold over the flattened pair list. -/
lemma buildObjectMap_eq_groupPairs (dbf : List FrameData) :
    buildObjectMap dbf = groupPairs (allPairs dbf) [] := by
  suffices h : ∀ m, dbf.foldl (fun m fd =>
      fd.objects.foldl (fun m' o => insertPair m' fd o) m) m =
      groupPairs (allPairs dbf) m from h []
  induction dbf with
  | nil => intro m; rfl
  | cons fd rest ih =>
    intro m
    rw [List.foldl_cons, ih]
    show groupPairs (allPairs rest) _ = groupPairs (allPairs (fd :: rest)) m
    rw [show allPairs (fd :: rest) =
        fd.objects.map (fun o => (fd, o)) ++ allPairs rest by
      simp [allPairs]]
    simp only [groupPairs]
    rw [List.foldl_append, List.foldl_map]

/-- Name-preserving updates commute with group lookup. -/
lemma findGroup_map_of_name_eq (m : List ObjGroup) (u : ObjGroup → ObjGroup)
    (hu : ∀ g, (u g).name = g.name) (n : String) :
    findGroup (m.map u) n = (findGroup m n).map u := by
  induction m with
  | nil => rfl
  | cons g rest ih =>
    by_cases hg : g.name = n
    · rw [List.map_cons, findGroup, List.find?_cons_of_pos _ (by simp [hu, hg]),
        findGroup, List.find?_cons_of_pos _ (by simp [hg])]
      rfl
    · rw [List.map_cons, findGroup, List.find?_cons_of_neg _ (by simp [hu, hg]),
        findGroup, List.find?_cons_of_neg _ (by simp [hg])]
      exact ih

/-- Effect of one grouping step on a lookup: the group keyed by the pair
gains one frame entry and one confidence (or is created), all other lookups
are unchanged. -/
lemma findGroup_insertPair (m : List ObjGroup) (fd : FrameData)
    (obj : FrameDetection) (n : String) :
    findGroup (insertPair m fd obj) n =
      if n = jsToLower obj.name then
        match findGroup m n with
        | some g => some { g with
                           frames := g.frames ++ [mkEntry fd obj]
                           confidences := g.confidences ++ [obj.confidence] }
        | none => some { name := jsToLower obj.name
                         frames := [mkEntry fd obj]
                         confidences := [obj.confidence] }
      else findGroup m n := by
  simp only [insertPair]
  by_cases hany : m.any (fun g => g.name = jsToLower obj.name) = true
  · rw [if_pos hany,
      findGroup_map_of_name_eq m _
        (fun g => by by_cases hk : g.name = jsToLower obj.name <;> simp [hk]) n]
    by_cases hn : n = jsToLower obj.name
    · rw [if_pos hn]
      obtain ⟨g0, hg0mem, hg0⟩ := List.any_eq_true.mp hany
      have hg0name : g0.name = jsToLower obj.name := by simpa using hg0
      have hsome : (findGroup m n).isSome :=
        List.find?_isSome.mpr ⟨g0, hg0mem, by simp [hg0name, hn]⟩
      cases hfind : findGroup m n with
      | none => rw [hfind] at hsome; simp at hsome
      | some g =>
        have hgname : g.name = n := by simpa using List.find?_some hfind
        simp [hgname, hn]
    · rw [if_neg hn]
      cases hfind : findGroup m n with
      | none => simp
      | some g =>
        have hgname : g.name = n := by simpa using List.find?_some hfind
        simp [hgname, hn]
  · rw [if_neg hany]
    have hforall : ∀ g ∈ m, ¬ g.name = jsToLower obj.name := by
      intro g hgm hcontra
      exact hany (List.any_eq_true.mpr ⟨g, hgm, by simp [hcontra]⟩)
    have hnone : m.find? (fun g => g.name = jsToLower obj.name) = none :=
      List.find?_eq_none.mpr (fun g hg => by simp [hforall g hg])
    by_cases hn : n = jsToLower obj.name
    · rw [if_pos hn]
      rw [show findGroup m n = none from hn ▸ hnone]
      rw [findGroup, List.find?_append,
        show m.find? (fun g => g.name = n) = none from hn ▸ hnone]
      simp [hn]
    · rw [if_neg hn, findGroup, List.find?_append]
      cases hfind : findGroup m n with
      | none =>
        rw [show m.find? (fun g => g.name = n) = none from hfind]
        simp [Ne.symm hn]
      | some g =>
        rw [show m.find? (fun g => g.name = n) = some g from hfind]
        simp

/-- Characterization of the full grouping fold: each lookup accumulates
exactly the matching entries of the processed pair list, in order. -/
lemma findGroup_groupPairs (ps : List (FrameData × FrameDetection)) :
    ∀ (m : List ObjGroup) (n : String),
      findGroup (groupPairs ps m) n =
        match findGroup m n with
        | some g => some { g with
                           frames := g.frames ++ entriesFor n ps
                           confidences := g.confidences ++ confsFor n ps }
        | none =>
          if ps.any (fun p => pairKey p = n) then
            some { name := n
                   frames := entriesFor n ps
                   confidences := confsFor n ps }
          else none := by
  induction ps with
  | nil =>
    intro m n
    cases hf : findGroup m n <;>
      simp [groupPairs, entriesFor, confsFor, hf]
  | cons p ps ih =>
    intro m n
    rw [show groupPairs (p :: ps) m = groupPairs ps (insertPair m p.1 p.2)
        from rfl,
      ih, findGroup_insertPair]
    by_cases hn : n = pairKey p
    · rw [hn]
      rw [if_pos (show pairKey p = jsToLower p.2.name from rfl)]
      have hentries : entriesFor (pairKey p) (p :: ps) =
          mkEntry p.1 p.2 :: entriesFor (pairKey p) ps := by
        simp [entriesFor, List.filter_cons]
      have hconfs : confsFor (pairKey p) (p :: ps) =
          p.2.confidence :: confsFor (pairKey p) ps := by
        simp [confsFor, List.filter_cons]
      have hanyhd : ((p :: ps).any (fun q => pairKey q = pairKey p)) = true := by
        simp
      cases hf : findGroup m (pairKey p) with
      | none =>
        simp [hanyhd, pairKey, entriesFor, confsFor, List.filter_cons]
      | some g => simp [hentries, hconfs]
    · rw [if_neg (show ¬ n = jsToLower p.2.name from hn)]
      have hne : ¬ pairKey p = n := fun h => hn h.symm
      have hentries : entriesFor n (p :: ps) = entriesFor n ps := by
        simp [entriesFor, List.filter_cons, hne]
      have hconfs : confsFor n (p :: ps) = confsFor n ps := by
        simp [confsFor, List.filter_cons, hne]
      have hany : ((p :: ps).any (fun q => pairKey q = n)) =
          (ps.any (fun q => pairKey q = n)) := by
        simp [hne]
      cases hf : findGroup m n <;> rw [hentries, hconfs, hany]

/-- One grouping step preserves uniqueness of group names. -/
lemma insertPair_names_nodup (m : List ObjGroup) (fd : FrameData)
    (obj : FrameDetection)
    (h : (m.map (fun g => g.name)).Nodup) :
    ((insertPair m fd obj).map (fun g => g.name)).Nodup := by
  simp only [insertPair]
  by_cases hany : m.any (fun g => g.name = jsToLower obj.name) = true
  · rw [if_pos hany]
    have hnames : (m.map (fun g =>
        if g.name = jsToLower obj.name then
          { g with frames := g.frames ++ [mkEntry fd obj]
                   confidences := g.confidences ++ [obj.confidence] }
        else g)).map (fun g => g.name) = m.map (fun g => g.name) := by
      rw [List.map_map]
      refine List.map_congr_left (fun g _ => ?_)
      by_cases hk : g.name = jsToLower obj.name <;> simp [hk]
    rwa [hnames]
  · rw [if_neg hany, List.map_append]
    have hfresh : jsToLower obj.name ∉ m.map (fun g => g.name) := by
      intro hmem
      obtain ⟨g, hgm, hgname⟩ := List.mem_map.mp hmem
      exact hany (List.any_eq_true.mpr ⟨g, hgm, by simp [hgname]⟩)
    simp only [List.map_cons, List.map_nil]
    rw [List.nodup_append]
    exact ⟨h, List.nodup_singleton _, fun a ha hb => by
      simp only [List.mem_singleton] at hb
      exact hfresh (hb ▸ ha)⟩

/-- The grouping fold preserves uniqueness of group names. -/
lemma groupPairs_names_nodup (ps : List (FrameData × FrameDetection)) :
    ∀ m : List ObjGroup, (m.map (fun g => g.name)).Nodup →
      ((groupPairs ps m).map (fun g => g.name)).Nodup := by
  induction ps with
  | nil => intro m h; exact h
  | cons p ps ih =>
    intro m h
    exact ih (insertPair m p.1 p.2) (insertPair_names_nodup m p.1 p.2 h)

/-- In a list of groups with unique names, lookup by a member's name finds
that member. -/
lemma findGroup_of_mem (m : List ObjGroup)
    (h : (m.map (fun g => g.name)).Nodup) (g : ObjGroup) (hg : g ∈ m) :
    findGroup m g.name = some g := by
  induction m with
  | nil => cases hg
  | cons g0 rest ih =>
    rw [List.map_cons, List.nodup_cons] at h
    rcases List.mem_cons.mp hg with rfl | hgrest
    · exact List.find?_cons_of_pos rest (by simp)
    · have hne : ¬ g0.name = g.name := fun hcontra =>
        h.1 (hcontra ▸ List.mem_map.mpr ⟨g, hgrest, rfl⟩)
      rw [findGroup, List.find?_cons_of_neg rest (by simp [hne])]
      exact ih h.2 hgrest

/-- Every group produced by the grouping phase of `detectObjectsInFrames`
collects exactly the frame entries and confidences of the traversed
`(frame, detection)` pairs whose lower-cased name is the group's name, in
traversal order. -/
lemma buildObjectMap_frames_eq (dbf : List FrameData) :
    ∀ g ∈ buildObjectMap dbf,
      g.frames = entriesFor g.name (allPairs dbf) ∧
      g.confidences = confsFor g.name (allPairs dbf) := by
  intro g hg
  rw [buildObjectMap_eq_groupPairs] at hg
  have hnd := groupPairs_names_nodup (allPairs dbf) [] (by simp)
  have hfind := findGroup_of_mem _ hnd g hg
  rw [findGroup_groupPairs] at hfind
  have hnil : findGroup [] g.name = none := rfl
  rw [hnil] at hfind
  by_cases hany : ((allPairs dbf).any (fun p => pairKey p = g.name)) = true
  · rw [if_pos hany] at hfind
    have := Option.some.inj hfind
    exact ⟨congrArg ObjGroup.frames this.symm,
      congrArg ObjGroup.confidences this.symm⟩
  · rw [if_neg hany] at hfind
    cases hfind

/-! ### Appearance percentage (C3) -/

/-- At most one detection of a frame matches a given name when the frame's
lower-cased detection names are distinct. -/
lemma countP_key_le_one (l : List FrameDetection) (n : String)
    (h : (l.map (fun o => jsToLower o.name)).Nodup) :
    l.countP (fun o => jsToLower o.name = n) ≤ 1 := by
  induction l with
  | nil => simp
  | cons o rest ih =>
    rw [List.map_cons, List.nodup_cons] at h
    rw [List.countP_cons]
    by_cases ho : jsToLower o.name = n
    · have hzero : rest.countP (fun o' => jsToLower o'.name = n) = 0 := by
        rw [List.countP_eq_zero]
        intro o' ho'
        simp only [decide_eq_true_eq]
        intro hcontra
        exact h.1 (List.mem_map.mpr ⟨o', ho', by rw [hcontra, ho]⟩)
      simp [ho, hzero]
    · simpa [ho] using ih h.2

/-- With per-frame distinct lower-cased names, a group collects at most one
entry per visited frame. -/
lemma entriesFor_allPairs_length_le (dbf : List FrameData) (n : String)
    (h : ∀ fd ∈ dbf, (fd.objects.map (fun o => jsToLower o.name)).Nodup) :
    (entriesFor n (allPairs dbf)).length ≤ dbf.length := by
  induction dbf with
  | nil => simp [entriesFor, allPairs]
  | cons fd rest ih =>
    have hall : allPairs (fd :: rest) =
        fd.objects.map (fun o => (fd, o)) ++ allPairs rest := by
      simp [allPairs]
    rw [entriesFor, hall, List.filter_append, List.map_append,
      List.length_append]
    have hhead : (((fd.objects.map (fun o => (fd, o))).filter
        (fun p => pairKey p = n)).map (fun p => mkEntry p.1 p.2)).length ≤ 1 := by
      rw [List.length_map, ← List.countP_eq_length_filter, List.countP_map]
      exact countP_key_le_one fd.objects n (h fd (List.mem_cons_self fd rest))
    have htail : (((allPairs rest).filter
        (fun p => pairKey p = n)).map (fun p => mkEntry p.1 p.2)).length ≤
        rest.length :=
      ih (fun fd' hf => h fd' (List.mem_cons_of_mem fd hf))
    simp only [List.length_cons]
    omega

/-- The detection loop visits at most as many frames as the full sequence
holds. -/
lemma detectionsByFrame_length_le (fp : List String) (sr : ℕ) (fps : ℚ)
    (detect : String → Except String (List FrameDetection)) :
    (detectionsByFrame fp sr fps detect).length ≤ fp.length := by
  rw [detectionsByFrame, List.length_map]
  exact sampledFramesGo_length_le sr fp 0

/-- JavaScript 1-decimal rounding preserves nonnegativity. -/
lemma jsRound1_nonneg (q : ℚ) (h : 0 ≤ q) : 0 ≤ jsRound1 q := by
  unfold jsRound1 jsRound
  have h1 : (0 : ℤ) ≤ ⌊q * 10 + 1 / 2⌋ := by
    rw [Int.le_floor]
    push_cast
    linarith
  have h2 : (0 : ℚ) ≤ (⌊q * 10 + 1 / 2⌋ : ℚ) := by exact_mod_cast h1
  linarith

/-- JavaScript 1-decimal rounding never exceeds 100 on inputs at most 100. -/
lemma jsRound1_le_100 (q : ℚ) (h : q ≤ 100) : jsRound1 q ≤ 100 := by
  unfold jsRound1 jsRound
  have h1 : ⌊q * 10 + 1 / 2⌋ ≤ 1000 := by
    rw [Int.floor_le_iff]
    push_cast
    linarith
  have h2 : ((⌊q * 10 + 1 / 2⌋ : ℤ) : ℚ) ≤ 1000 := by exact_mod_cast h1
  linarith

/-- C3 (amended): for every summary produced on a non-empty frame sequence,
`appearance_percentage = round1(frames.length / N × 100)` with the full
(unsampled) frame count `N` as denominator; and the value lies in `[0, 100]`
provided no sampled frame reports the same (lower-cased) name twice.  (The
bound does not hold unconditionally: a frame listing one name twice pushes a
group's `frames` count past the frame count, see the counterexample.) -/
theorem c3_appearance_percentage_amended (fp : List String) (sr : ℕ)
    (fps : ℚ) (detect : String → Except String (List FrameDetection))
    (hne : fp ≠ [])
    (hnodup : ∀ fd ∈ detectionsByFrame fp sr fps detect,
      (fd.objects.map (fun o => jsToLower o.name)).Nodup) :
    ∀ o ∈ detectObjectsInFrames fp sr fps detect,
      o.appearance_percentage =
        jsRound1 (((o.frames.length : ℚ) / (fp.length : ℚ)) * 100) ∧
      0 ≤ o.appearance_percentage ∧ o.appearance_percentage ≤ 100 := by
  intro o ho
  rw [detectObjectsInFrames, sortByAppearance] at ho
  have ho2 := (List.perm_insertionSort
    (fun a b : DetectedObjectSummary =>
      b.appearance_percentage ≤ a.appearance_percentage) _).mem_iff.mp ho
  obtain ⟨g, hgmem, rfl⟩ := List.mem_map.mp ho2
  refine ⟨rfl, ?_, ?_⟩
  · exact jsRound1_nonneg _ (by positivity)
  · have hframes := (buildObjectMap_frames_eq _ g hgmem).1
    have hlen : g.frames.length ≤ fp.length := by
      rw [hframes]
      exact le_trans
        (entriesFor_allPairs_length_le _ g.name hnodup)
        (detectionsByFrame_length_le fp sr fps detect)
    have hN : (0 : ℚ) < fp.length := by
      exact_mod_cast List.length_pos.mpr hne
    refine jsRound1_le_100 _ ?_
    have hdiv : (g.frames.length : ℚ) / fp.length ≤ 1 := by
      rw [div_le_one hN]
      exact_mod_cast hlen
    have hmul := mul_le_mul_of_nonneg_right hdiv
      (by norm_num : (0 : ℚ) ≤ 100)
    linarith

/-- C3 counterexample: on the one-frame sequence whose single frame reports
the name `"person"` twice, the produced summary's `appearance_percentage` is
200, outside `[0, 100]`. -/
theorem c3_appearance_percentage_counterexample :
    100 < ((detectObjectsInFrames ["f1"] 1 1
      (fun _ => .ok
        [{ name := "person", confidence := 0.9, context := "a" },
         { name := "person", confidence := 0.8, context := "b" }])).headD
      default).appearance_percentage := by
  have h : detectObjectsInFrames ["f1"] 1 1
      (fun _ => .ok
        [{ name := "person", confidence := 0.9, context := "a" },
         { name := "person", confidence := 0.8, context := "b" }]) =
      sortByAppearance ([{ name := jsToLower "person"
                           frames :=
                             [{ frame_id := 1, timestamp := ((1 : ℚ) - 1) / 1,
                                confidence := 0.9, context := "a" },
                              { frame_id := 1, timestamp := ((1 : ℚ) - 1) / 1,
                                confidence := 0.8, context := "b" }]
                           confidences := [0.9, 0.8] }].map (mkSummary 1)) :=
    rfl
  rw [h]
  simp only [sortByAppearance, List.map_cons, List.map_nil,
    List.insertionSort, List.orderedInsert, mkSummary, List.headD_cons]
  norm_num [jsRound1, jsRound]

/-- Witness for C3 at a concrete input: two frames, one clean detection
each. -/
theorem c3_appearance_percentage_witness :
    (["f1", "f2"] : List String) ≠ [] ∧
    (0 ≤ ((detectObjectsInFrames ["f1", "f2"] 1 1
        (fun _ => .ok [{ name := "person", confidence := 0.9,
                         context := "c" }])).headD default).appearance_percentage ∧
      ((detectObjectsInFrames ["f1", "f2"] 1 1
        (fun _ => .ok [{ name := "person", confidence := 0.9,
                         context := "c" }])).headD
          default).appearance_percentage ≤ 100) := by
  refine ⟨by decide, ?_⟩
  have hthm := c3_appearance_percentage_amended ["f1", "f2"] 1 1
    (fun _ => .ok [{ name := "person", confidence := 0.9, context := "c" }])
    (by decide) (by decide)
  have hlen : (detectObjectsInFrames ["f1", "f2"] 1 1
      (fun _ => .ok [{ name := "person", confidence := 0.9,
                       context := "c" }])).length = 1 := rfl
  cases hl : detectObjectsInFrames ["f1", "f2"] 1 1
      (fun _ => .ok [{ name := "person", confidence := 0.9,
                       context := "c" }]) with
  | nil => rw [hl] at hlen; cases hlen
  | cons a t =>
    have hmem : a ∈ detectObjectsInFrames ["f1", "f2"] 1 1
        (fun _ => .ok [{ name := "person", confidence := 0.9,
                         context := "c" }]) := by
      rw [hl]; exact List.mem_cons_self a t
    simp only [List.headD_cons]
    exact ⟨(hthm a hmem).2.1, (hthm a hmem).2.2⟩

/-! ### Frame ordering inside summaries (C9) -/

/-- Positional characterization of the visited frame ordinals: the `i`-th
visited frame carries `frame_id = i·sr + 1`, which is its 1-based ordinal in
the full sequence (distinct frame paths make `indexOf` recover the true
position). -/
lemma detectionsByFrame_frameId_getElem? (fp : List String) (sr : ℕ)
    (fps : ℚ) (detect : String → Except String (List FrameDetection))
    (hnd : fp.Nodup) (hsr : 0 < sr) (i : ℕ) :
    ((detectionsByFrame fp sr fps detect).map (fun fd => fd.frame_id))[i]? =
      (fp[i * sr]?).map (fun _ => i * sr + 1) := by
  rw [detectionsByFrame, List.map_map, List.getElem?_map,
    sampledFrames_getElem? sr hsr i fp]
  cases hx : fp[i * sr]? with
  | none => rfl
  | some path =>
    obtain ⟨hlt, hval⟩ := List.getElem?_eq_some.mp hx
    show some (fp.indexOf path + 1) = some (i * sr + 1)
    congr 1
    rw [← hval, List.indexOf_getElem hnd (i * sr) hlt]

/-- The visited frame ordinals are strictly increasing. -/
lemma detectionsByFrame_frameId_pairwise (fp : List String) (sr : ℕ)
    (fps : ℚ) (detect : String → Except String (List FrameDetection))
    (hnd : fp.Nodup) (hsr : 0 < sr) :
    ((detectionsByFrame fp sr fps detect).map
      (fun fd => fd.frame_id)).Pairwise (· < ·) := by
  rw [List.pairwise_iff_getElem]
  intro i j hi hj hij
  have hich := detectionsByFrame_frameId_getElem? fp sr fps detect hnd hsr i
  have hjch := detectionsByFrame_frameId_getElem? fp sr fps detect hnd hsr j
  rw [List.getElem?_eq_getElem hi] at hich
  rw [List.getElem?_eq_getElem hj] at hjch
  cases hfpi : fp[i * sr]? with
  | none => rw [hfpi] at hich; cases hich
  | some vi =>
    cases hfpj : fp[j * sr]? with
    | none => rw [hfpj] at hjch; cases hjch
    | some vj =>
      rw [hfpi] at hich
      rw [hfpj] at hjch
      have hvi := Option.some.inj hich
      have hvj := Option.some.inj hjch
      rw [hvi, hvj]
      show i * sr + 1 < j * sr + 1
      have := (Nat.mul_lt_mul_right hsr).mpr hij
      omega

/-- A list repeating one value is weakly increasing. -/
lemma pairwise_map_const_le {α : Type} (c : ℕ) (l : List α) :
    (l.map (fun _ => c)).Pairwise (· ≤ ·) := by
  induction l with
  | nil => simp
  | cons a t ih =>
    rw [List.map_cons, List.pairwise_cons]
    refine ⟨fun b hb => ?_, ih⟩
    obtain ⟨x, _, rfl⟩ := List.mem_map.mp hb
    exact le_refl c

/-- Replicating each strictly increasing ordinal once per detection yields a
weakly increasing flat list. -/
lemma pairwise_le_flatMap_const (dbf : List FrameData)
    (h : (dbf.map (fun fd => fd.frame_id)).Pairwise (· < ·)) :
    (dbf.flatMap (fun fd =>
      fd.objects.map (fun _ => fd.frame_id))).Pairwise (· ≤ ·) := by
  induction dbf with
  | nil => simp
  | cons fd rest ih =>
    rw [List.map_cons, List.pairwise_cons] at h
    rw [List.flatMap_cons, List.pairwise_append]
    refine ⟨pairwise_map_const_le fd.frame_id fd.objects, ih h.2, ?_⟩
    intro a ha b hb
    obtain ⟨x, _, rfl⟩ := List.mem_map.mp ha
    obtain ⟨fd', hfd', hb2⟩ := List.mem_flatMap.mp hb
    obtain ⟨y, _, rfl⟩ := List.mem_map.mp hb2
    exact le_of_lt (h.1 fd'.frame_id (List.mem_map.mpr ⟨fd', hfd', rfl⟩))

/-- The visiting frame of each traversed pair, flattened. -/
lemma allPairs_map_frameId (dbf : List FrameData) :
    (allPairs dbf).map (fun p => p.1.frame_id) =
      dbf.flatMap (fun fd => fd.objects.map (fun _ => fd.frame_id)) := by
  rw [allPairs, List.map_flatMap]
  congr 1
  funext fd
  rw [List.map_map]
  rfl

/-- A group's frame ordinals form a sublist of the flattened visit order. -/
lemma entriesFor_frameId_sublist (n : String)
    (ps : List (FrameData × FrameDetection)) :
    List.Sublist ((entriesFor n ps).map (fun f => f.frame_id))
      (ps.map (fun p => p.1.frame_id)) := by
  rw [entriesFor, List.map_map]
  exact (List.filter_sublist ps).map _

/-- C9: under the engine's input contract (distinct frame paths, positive
stride), every summary's `frames` list is ordered by ascending (weakly
increasing) `frame_id`, and each entry's `frame_id` is the 1-based ordinal
of a sampled frame of the full unsampled sequence (`k + 1` for a 0-based
index `k < N` with `k` a multiple of the stride). -/
theorem c9_frames_ordering (fp : List String) (sr : ℕ) (fps : ℚ)
    (detect : String → Except String (List FrameDetection))
    (hnd : fp.Nodup) (hsr : 0 < sr) :
    ∀ o ∈ detectObjectsInFrames fp sr fps detect,
      (o.frames.map (fun f => f.frame_id)).Pairwise (· ≤ ·) ∧
      ∀ f ∈ o.frames, ∃ k, k < fp.length ∧ k % sr = 0 ∧
        f.frame_id = k + 1 := by
  intro o ho
  rw [detectObjectsInFrames, sortByAppearance] at ho
  have ho2 := (List.perm_insertionSort
    (fun a b : DetectedObjectSummary =>
      b.appearance_percentage ≤ a.appearance_percentage) _).mem_iff.mp ho
  obtain ⟨g, hgmem, rfl⟩ := List.mem_map.mp ho2
  have hframes := (buildObjectMap_frames_eq _ g hgmem).1
  have hpair := detectionsByFrame_frameId_pairwise fp sr fps detect hnd hsr
  constructor
  · show (g.frames.map (fun f => f.frame_id)).Pairwise (· ≤ ·)
    rw [hframes]
    have hsub := entriesFor_frameId_sublist g.name
      (allPairs (detectionsByFrame fp sr fps detect))
    rw [allPairs_map_frameId] at hsub
    exact (pairwise_le_flatMap_const _ hpair).sublist hsub
  · intro f hf
    have hf2 : f ∈ entriesFor g.name
        (allPairs (detectionsByFrame fp sr fps detect)) := hframes ▸ hf
    rw [entriesFor] at hf2
    obtain ⟨p, hpfil, rfl⟩ := List.mem_map.mp hf2
    have hp : p ∈ allPairs (detectionsByFrame fp sr fps detect) :=
      List.mem_of_mem_filter hpfil
    obtain ⟨fd, hfd, hpin⟩ := List.mem_flatMap.mp hp
    obtain ⟨obj, _, rfl⟩ := List.mem_map.mp hpin
    obtain ⟨i, hi⟩ := List.mem_iff_getElem?.mp
      (List.mem_map.mpr ⟨fd, hfd, rfl⟩)
    rw [detectionsByFrame_frameId_getElem? fp sr fps detect hnd hsr i] at hi
    cases hfp : fp[i * sr]? with
    | none => rw [hfp] at hi; cases hi
    | some v =>
      rw [hfp] at hi
      have hfd_id : fd.frame_id = i * sr + 1 := (Option.some.inj hi).symm
      exact ⟨i * sr, (List.getElem?_eq_some.mp hfp).1,
        Nat.mul_mod_left i sr, hfd_id⟩

/-- Witness for C9 at a concrete input: three distinct frames, stride 2, one
clean detection per sampled frame. -/
theorem c9_frames_ordering_witness :
    (["f1", "f2", "f3"] : List String).Nodup ∧ 0 < 2 ∧
    (((((detectObjectsInFrames ["f1", "f2", "f3"] 2 1
        (fun _ => .ok [{ name := "person", confidence := 0.9,
                         context := "c" }])).headD default).frames.map
        (fun f => f.frame_id)).Pairwise (· ≤ ·)) ∧
      ∀ f ∈ ((detectObjectsInFrames ["f1", "f2", "f3"] 2 1
        (fun _ => .ok [{ name := "person", confidence := 0.9,
                         context := "c" }])).headD default).frames,
        ∃ k, k < (["f1", "f2", "f3"] : List String).length ∧ k % 2 = 0 ∧
          f.frame_id = k + 1) := by
  refine ⟨by decide, by decide, ?_⟩
  have hthm := c9_frames_ordering ["f1", "f2", "f3"] 2 1
    (fun _ => .ok [{ name := "person", confidence := 0.9, context := "c" }])
    (by decide) (by decide)
  have hlen : (detectObjectsInFrames ["f1", "f2", "f3"] 2 1
      (fun _ => .ok [{ name := "person", confidence := 0.9,
                       context := "c" }])).length = 1 := rfl
  cases hl : detectObjectsInFrames ["f1", "f2", "f3"] 2 1
      (fun _ => .ok [{ name := "person", confidence := 0.9,
                       context := "c" }]) with
  | nil => rw [hl] at hlen; cases hlen
  | cons a t =>
    have hmem : a ∈ detectObjectsInFrames ["f1", "f2", "f3"] 2 1
        (fun _ => .ok [{ name := "person", confidence := 0.9,
                         context := "c" }]) := by
      rw [hl]; exact List.mem_cons_self a t
    simp only [List.headD_cons]
    exact ⟨(hthm a hmem).1, (hthm a hmem).2⟩

end VideoAnalysis
